import Mathlib

/-!
Verification of the Content Access & Authorization Gateway of the
XAOSTECH blog worker (`src/index.ts`, `src/middleware.ts`).

The route handlers are shallowly embedded as pure Lean functions over
explicit state: the `posts` table is a `List Post`, cache invalidations
and outbound calls are recorded as explicit effect lists, and JavaScript
truthiness (`x || d`, `!x`) is modelled by helper functions on `Option`.
Unix timestamps and byte sizes are `Int` (they are ordinary doubles in
the source, used only at integral values).
-/

namespace BlogGateway

/-- JavaScript `a || d` for an optional string binding: `undefined`/`null`
    and the empty string are falsy. -/
def jsOrStr (a : Option String) (d : String) : String :=
  match a with
  | some s => if s = "" then d else s
  | none => d

/-- JavaScript `a || 0` for an optional numeric field (`quota?.total_bytes_used || 0`). -/
def jsOrZero (a : Option Int) : Int :=
  match a with
  | some n => n
  | none => 0

/-- JavaScript `a?.f || null` producing a nullable string: `user?.id || null`. -/
def jsOrNull (a : Option String) : Option String :=
  match a with
  | some s => if s = "" then none else some s
  | none => none

/-- The `User` interface of `src/index.ts`: the principal resolved from the
    session (only the fields the verified routes consult). -/
structure User where
  id : String
  email : String
  username : Option String := none
  role : String
deriving Repr, DecidableEq

/-- The `Env` bindings of `src/index.ts`, with the numeric configuration
    values already through `parseInt` (the source parses them at each use). -/
structure Env where
  ADMIN_ROLE : String
  MAX_FILE_SIZE : Int
  FREE_TIER_LIMIT_GB : Int
  CACHE_TTL : Int
deriving Repr, DecidableEq

/-- A row of the `posts` table (migration `0001_init_schema.sql`);
    `published_at` is nullable. -/
structure Post where
  id : String
  title : String
  slug : String
  content : String
  excerpt : String
  author_id : String
  status : String
  created_at : Int
  updated_at : Int
  published_at : Option Int
deriving Repr, DecidableEq

/-- `user.role !== ADMIN_ROLE && user.role !== 'owner'` is the shared
    guard of the three post-write routes; this is its complement. -/
def postWriteAllowed (env : Env) (u : User) : Bool :=
  u.role == env.ADMIN_ROLE || u.role == "owner"

/-- `^[a-z0-9-]+$` character class of `PostSchema.slug`. -/
def isSlugChar (c : Char) : Bool :=
  ('a' ≤ c && c ≤ 'z') || c.isDigit || c == '-'

def titleValid (t : String) : Bool := 3 ≤ t.length && t.length ≤ 200
def slugValid (s : String) : Bool := !s.isEmpty && s.toList.all isSlugChar
def contentValid (ct : String) : Bool := 10 ≤ ct.length
def excerptValid (e : String) : Bool := e.length ≤ 300

/-- A post-creation request body. `PostSchema` is a zod object schema, so
    unrecognized keys — in particular any `status` the client sends — are
    stripped during `parse`; `rawStatus` records such a key to state that
    it is ignored. -/
structure PostBody where
  title : String
  slug : String
  content : String
  excerpt : Option String := none
  rawStatus : Option String := none
deriving Repr, DecidableEq

/-- `PostSchema.parse` succeeds exactly on these bodies. -/
def postBodyValid (b : PostBody) : Bool :=
  titleValid b.title && slugValid b.slug && contentValid b.content &&
  (match b.excerpt with | some e => excerptValid e | none => true)

/-- A `PUT /posts/:id` body after `PostSchema.partial().parse`: every field
    optional, only supplied fields are written. -/
structure PostPatch where
  title : Option String := none
  slug : Option String := none
  content : Option String := none
  excerpt : Option String := none
deriving Repr, DecidableEq

def optValid (o : Option String) (f : String → Bool) : Bool :=
  match o with
  | some s => f s
  | none => true

def patchValid (p : PostPatch) : Bool :=
  optValid p.title titleValid && optValid p.slug slugValid &&
  optValid p.content contentValid && optValid p.excerpt excerptValid

/-- An all-`none` patch: `Object.entries(validated)` is empty, the built
    `UPDATE posts SET , updated_at = ?` statement is malformed SQL, the
    thrown error is caught and the handler answers 400. -/
def patchEmpty (p : PostPatch) : Bool :=
  p.title == none && p.slug == none && p.content == none && p.excerpt == none

/-- The row update performed by `UPDATE posts SET <supplied fields>,
    updated_at = ? WHERE id = ? AND author_id = ?` on a matching row. -/
def applyPatch (patch : PostPatch) (now : Int) (p : Post) : Post :=
  { p with
    title := patch.title.getD p.title
    slug := patch.slug.getD p.slug
    content := patch.content.getD p.content
    excerpt := patch.excerpt.getD p.excerpt
    updated_at := now }

/-- Result of a post-write route: HTTP status, the `posts` table after the
    handler, and the cache keys it deleted. -/
structure WriteOutcome where
  status : Nat
  db : List Post
  cacheDeletes : List String
deriving Repr, DecidableEq

/-- `POST /posts` (`src/index.ts` lines 368–403): role gate, zod validation,
    insert with literal `'draft'` status and no `published_at` column
    (so the schema default NULL applies), then delete `posts:page:1`. -/
def createPost (env : Env) (user : Option User) (body : PostBody)
    (newId : String) (now : Int) (db : List Post) : WriteOutcome :=
  match user with
  | none => ⟨403, db, []⟩
  | some u =>
    if !postWriteAllowed env u then ⟨403, db, []⟩
    else if !postBodyValid body then ⟨400, db, []⟩
    else
      ⟨201,
       db ++ [{ id := newId
                title := body.title
                slug := body.slug
                content := body.content
                excerpt := jsOrStr body.excerpt ""
                author_id := u.id
                status := "draft"
                created_at := now
                updated_at := now
                published_at := none }],
       ["posts:page:1"]⟩

/-- `PUT /posts/:id` (`src/index.ts` lines 406–434): role gate (403 also for
    the anonymous caller), `PostSchema.partial()` validation, then
    `UPDATE ... WHERE id = ? AND author_id = ?`; a non-matching predicate is
    a no-op, not an error. No cache key is deleted on this route. -/
def putPost (env : Env) (user : Option User) (id : String) (patch : PostPatch)
    (now : Int) (db : List Post) : WriteOutcome :=
  match user with
  | none => ⟨403, db, []⟩
  | some u =>
    if !postWriteAllowed env u then ⟨403, db, []⟩
    else if !patchValid patch then ⟨400, db, []⟩
    else if patchEmpty patch then ⟨400, db, []⟩
    else
      ⟨200,
       db.map (fun p =>
         if p.id == id && p.author_id == u.id then applyPatch patch now p else p),
       []⟩

/-- The row update of `UPDATE posts SET status = 'published',
    published_at = ?, updated_at = ?`: `published_at` is bound to `now`
    unconditionally. -/
def publishRow (now : Int) (p : Post) : Post :=
  { p with status := "published", published_at := some now, updated_at := now }

/-- `POST /posts/:id/publish` (`src/index.ts` lines 437–455): role gate, the
    unconditional publish update scoped to `id AND author_id`, then delete
    `posts:page:1`. -/
def publishPost (env : Env) (user : Option User) (id : String) (now : Int)
    (db : List Post) : WriteOutcome :=
  match user with
  | none => ⟨403, db, []⟩
  | some u =>
    if !postWriteAllowed env u then ⟨403, db, []⟩
    else
      ⟨200,
       db.map (fun p =>
         if p.id == id && p.author_id == u.id then publishRow now p else p),
       ["posts:page:1"]⟩

/-! ### Wall comments (`POST /walls/:id/comments`) -/

structure CommentBody where
  content : String
  author_name : Option String := none
  parent_comment_id : Option String := none
deriving Repr, DecidableEq

/-- `CommentSchema.parse` succeeds exactly on these bodies
    (content between 1 and 5000 characters). -/
def commentBodyValid (b : CommentBody) : Bool :=
  1 ≤ b.content.length && b.content.length ≤ 5000

/-- A row of the `comments` table as inserted by the wall-comment route. -/
structure CommentRow where
  id : String
  content : String
  author_id : Option String
  author_name : String
  wall_id : String
  status : String
  created_at : Int
  updated_at : Int
deriving Repr, DecidableEq

structure CommentOutcome where
  status : Nat
  inserted : Option CommentRow
deriving Repr, DecidableEq

/-- `user && user.role === c.env.ADMIN_ROLE ? 'approved' : 'pending'`
    (`src/index.ts` line 506). -/
def commentStatus (env : Env) (user : Option User) : String :=
  match user with
  | some u => if u.role == env.ADMIN_ROLE then "approved" else "pending"
  | none => "pending"

/-- `POST /walls/:id/comments` (`src/index.ts` lines 495–526): public route;
    `status` is `'approved'` exactly when `user && user.role === ADMIN_ROLE`,
    else `'pending'`; `author_id` is `user?.id || null` and `author_name` is
    `validated.author_name || 'Anonymous'`. -/
def postWallComment (env : Env) (user : Option User) (wallId : String)
    (body : CommentBody) (newId : String) (now : Int) : CommentOutcome :=
  if !commentBodyValid body then ⟨400, none⟩
  else
    let st := commentStatus env user
    ⟨201, some
      { id := newId
        content := body.content
        author_id := jsOrNull (user.map (·.id))
        author_name := jsOrStr body.author_name "Anonymous"
        wall_id := wallId
        status := st
        created_at := now
        updated_at := now }⟩

/-! ### Upload coordinator (`POST /upload`) and media deletion -/

structure FileInfo where
  name : String
  size : Int
  mimeType : String
deriving Repr, DecidableEq

/-- Side effects a media route can perform: the outbound storage-service
    call and the two local database writes of the upload path. -/
inductive Effect where
  | storageCall
  | mediaInsert
  | quotaUpsert
deriving Repr, DecidableEq

structure HandlerOutcome where
  status : Nat
  effects : List Effect
deriving Repr, DecidableEq

/-- The `asStatus` helper of `src/index.ts`: statuses below 200 become 500. -/
def asStatus (status : Nat) : Nat :=
  if status ≥ 200 then status else 500

/-- `POST /upload` (`src/index.ts` lines 531–629), with the gates in source
    order: 401 without a principal, 400 without a file, 413 above
    `MAX_FILE_SIZE`, 429 above the free-tier byte limit, then the storage
    call (its failure status propagated through `asStatus`), and on success
    the `media` insert and `usage_quota` upsert.
    `quotaRow` is the `total_bytes_used` read for the user (`none` when no
    quota row exists); `storageStatus` is the external service's response
    status (`response.ok` is a 2xx status). -/
def uploadHandler (env : Env) (user : Option User) (file : Option FileInfo)
    (quotaRow : Option Int) (storageStatus : Nat) : HandlerOutcome :=
  match user with
  | none => ⟨401, []⟩
  | some _ =>
    match file with
    | none => ⟨400, []⟩
    | some f =>
      if f.size > env.MAX_FILE_SIZE then ⟨413, []⟩
      else
        let used := jsOrZero quotaRow
        let lim := env.FREE_TIER_LIMIT_GB * 1024 * 1024 * 1024
        if used + f.size > lim then ⟨429, []⟩
        else if !(200 ≤ storageStatus && storageStatus ≤ 299) then
          ⟨asStatus storageStatus, [Effect.storageCall]⟩
        else
          ⟨201, [Effect.storageCall, Effect.mediaInsert, Effect.quotaUpsert]⟩

/-- `DELETE /media/:key` (`src/index.ts` lines 766–795): 401 without a
    principal, 403 unless the (URI-decoded) key starts with `user.id + '/'`,
    otherwise a single outbound DELETE to the storage service whose status
    is passed back through `asStatus`. The route runs no local database
    statement. -/
def deleteMedia (user : Option User) (key : String) (storageStatus : Nat) :
    HandlerOutcome :=
  match user with
  | none => ⟨401, []⟩
  | some u =>
    if !(key.startsWith (u.id ++ "/")) then ⟨403, []⟩
    else ⟨asStatus storageStatus, [Effect.storageCall]⟩

/-! ### Listing pagination (`GET /posts`) -/

/-- Longest leading run of decimal digits. -/
def takeDigits : List Char → List Char
  | [] => []
  | c :: cs => if c.isDigit then c :: takeDigits cs else []

def digitsToNat (ds : List Char) : Nat :=
  ds.foldl (fun acc c => acc * 10 + (c.toNat - 48)) 0

/-- JavaScript `parseInt(s)` in base 10: skip leading whitespace, optional
    sign, then the longest digit run; `none` models `NaN` (no digits). -/
def parseIntJS (s : String) : Option Int :=
  let cs := s.toList.dropWhile (fun c => c == ' ' || c == '\t' || c == '\n' || c == '\r')
  match cs with
  | '-' :: r =>
    let ds := takeDigits r
    if ds.isEmpty then none else some (-(digitsToNat ds : Int))
  | '+' :: r =>
    let ds := takeDigits r
    if ds.isEmpty then none else some (digitsToNat ds : Int)
  | r =>
    let ds := takeDigits r
    if ds.isEmpty then none else some (digitsToNat ds : Int)

/-- `c.req.query('p') || d`: the default applies when the parameter is
    absent or the empty string (both falsy). -/
def queryOr (q : Option String) (d : String) : String :=
  match q with
  | some s => if s = "" then d else s
  | none => d

/-- `Math.ceil(a / b)` for a nonzero integer divisor. -/
def jsCeilDiv (a b : Int) : Int := -(Int.fdiv (-a) b)

/-- The pagination values computed by `GET /posts` (`src/index.ts` lines
    148–183) on a cache miss: `page`/`limit` from `parseInt(query || dflt)`
    (`none` models `NaN`, which propagates through the arithmetic),
    `offset = (page - 1) * limit`, `pages = Math.ceil(total / limit)`
    (`none` also for the non-finite `limit = 0` results). -/
structure ListOutcome where
  page : Option Int
  limit : Option Int
  offset : Option Int
  total : Int
  pages : Option Int
deriving Repr, DecidableEq

def listPosts (pageQ limitQ : Option String) (total : Int) : ListOutcome :=
  let page := parseIntJS (queryOr pageQ "1")
  let lim := parseIntJS (queryOr limitQ "10")
  let offset :=
    match page, lim with
    | some p, some l => some ((p - 1) * l)
    | _, _ => none
  let pages :=
    match lim with
    | some l => if l == 0 then none else some (jsCeilDiv total l)
    | none => none
  ⟨page, lim, offset, total, pages⟩

/-- Modelled from the spec: the spec's words "page/limit are clamped to
    positive integers with defaults (page=1, limit=10) when absent or
    non-numeric" as a function of the raw query parameter, for comparison
    with what `listPosts` computes. -/
def specClampedParam (q : Option String) (d : Int) : Int :=
  match q with
  | none => d
  | some s =>
    match parseIntJS s with
    | none => d
    | some n => if n < 1 then 1 else n

/-! ### Session resolver (`src/index.ts` lines 78–109, `src/middleware.ts`) -/

/-- A parsed session record from the external sessions KV store. `expires`
    is `none` when the field is absent or `null`; `some 0` is the other
    falsy numeric value the source's `!session.expires` accepts. -/
structure SessionRec where
  userId : Option String := none
  id : Option String := none
  email : Option String := none
  username : Option String := none
  role : Option String := none
  expires : Option Int := none
deriving Repr, DecidableEq

/-- `!session.expires || session.expires > Date.now()`. -/
def sessionValid (s : SessionRec) (now : Int) : Bool :=
  match s.expires with
  | none => true
  | some e => if e == 0 then true else decide (e > now)

/-- The principal the middleware builds from an accepted session:
    `id: session.userId || session.id` (modelled with `""` for the
    doubly-absent case), `email: session.email || ''`,
    `role: session.role || 'user'`. -/
def principalOf (s : SessionRec) : User :=
  { id := jsOrStr s.userId (jsOrStr s.id "")
    email := jsOrStr s.email ""
    username := s.username
    role := jsOrStr s.role "user" }

/-- The session middleware of `src/index.ts` (lines 78–109): with a session
    id from the cookie and a path other than `/health`, look the id up in
    `SESSIONS_KV`; a hit whose expiry check passes sets the principal, every
    other case leaves it anonymous (`none`). -/
def resolveSession (path : String) (sessionId : Option String)
    (store : List (String × SessionRec)) (now : Int) : Option User :=
  match sessionId with
  | none => none
  | some sid =>
    if path = "/health" then none
    else
      match store.lookup sid with
      | none => none
      | some s => if sessionValid s now then some (principalOf s) else none

/-! ### Concrete fixtures used by counterexamples and witnesses -/

def envEx : Env :=
  { ADMIN_ROLE := "admin", MAX_FILE_SIZE := 100, FREE_TIER_LIMIT_GB := 1, CACHE_TTL := 60 }

def adminEx : User := { id := "u1", email := "a@x.io", role := "admin" }

def outsiderEx : User := { id := "u2", email := "b@x.io", role := "user" }

def draftPostEx : Post :=
  { id := "p1", title := "Hello", slug := "hello", content := "0123456789"
    excerpt := "", author_id := "u1", status := "draft"
    created_at := 1, updated_at := 1, published_at := none }

def publishedPostEx : Post :=
  { draftPostEx with status := "published", published_at := some 5, updated_at := 5 }

def patchEx : PostPatch := { title := some "Hello again" }

def bodyEx : PostBody :=
  { title := "Hello", slug := "hello", content := "0123456789"
    rawStatus := some "published" }

def commentBodyEx : CommentBody := { content := "hi" }

def fileSmallEx : FileInfo := { name := "a.png", size := 50, mimeType := "image/png" }

def fileBigEx : FileInfo := { name := "b.png", size := 101, mimeType := "image/png" }

def sessionNoExpiryEx : SessionRec := { userId := some "u1", role := some "admin" }

def sessionExpiredEx : SessionRec := { userId := some "u1", role := some "admin", expires := some 10 }

/-! ## Helper lemmas -/

theorem postWriteAllowed_of_role (env : Env) (u : User)
    (h : u.role = env.ADMIN_ROLE ∨ u.role = "owner") :
    postWriteAllowed env u = true := by
  rcases h with h | h <;> simp [postWriteAllowed, h]

theorem postWriteAllowed_false (env : Env) (v : User)
    (h1 : v.role ≠ env.ADMIN_ROLE) (h2 : v.role ≠ "owner") :
    postWriteAllowed env v = false := by
  simp [postWriteAllowed, h1, h2]

/-! ## Claim theorems -/

/-- C1 counterexample: the anonymous `PUT /posts/:id` request is answered
    with status 403 by the handler, not the claimed 401. -/
theorem putPost_anonymous_403_counterexample :
    (putPost envEx none "p1" patchEx 2 [draftPostEx]).status = 403 ∧
    (403 : Nat) ≠ 401 :=
  ⟨rfl, by decide⟩

/-- C1 (amended): `PUT /posts/:id` answers 403 both to the anonymous caller
    and to any principal whose role is neither the configured admin role nor
    `owner` (regardless of authorship); a privileged caller with a valid
    non-empty patch gets 200, rows not matching the id and the caller's
    author id are untouched, and a matching row changes exactly in the
    supplied fields plus `updated_at`. -/
theorem putPost_authorization_and_frame
    (env : Env) (u v : User) (id : String) (patch : PostPatch) (now : Int)
    (db : List Post)
    (hrole : u.role = env.ADMIN_ROLE ∨ u.role = "owner")
    (hv1 : v.role ≠ env.ADMIN_ROLE) (hv2 : v.role ≠ "owner")
    (hvalid : patchValid patch = true) (hne : patchEmpty patch = false) :
    putPost env none id patch now db = ⟨403, db, []⟩ ∧
    putPost env (some v) id patch now db = ⟨403, db, []⟩ ∧
    (putPost env (some u) id patch now db).status = 200 ∧
    (putPost env (some u) id patch now db).db =
      db.map (fun p =>
        if p.id == id && p.author_id == u.id then applyPatch patch now p else p) ∧
    (∀ p : Post,
      (applyPatch patch now p).id = p.id ∧
      (applyPatch patch now p).author_id = p.author_id ∧
      (applyPatch patch now p).status = p.status ∧
      (applyPatch patch now p).created_at = p.created_at ∧
      (applyPatch patch now p).published_at = p.published_at ∧
      (applyPatch patch now p).updated_at = now ∧
      (patch.title = none → (applyPatch patch now p).title = p.title) ∧
      (patch.slug = none → (applyPatch patch now p).slug = p.slug) ∧
      (patch.content = none → (applyPatch patch now p).content = p.content) ∧
      (patch.excerpt = none → (applyPatch patch now p).excerpt = p.excerpt)) := by
  have hu := postWriteAllowed_of_role env u hrole
  have hv := postWriteAllowed_false env v hv1 hv2
  refine ⟨rfl, ?_, ?_, ?_, ?_⟩
  · simp [putPost, hv]
  · simp [putPost, hu, hvalid, hne]
  · simp [putPost, hu, hvalid, hne]
  · intro p
    refine ⟨rfl, rfl, rfl, rfl, rfl, rfl, ?_, ?_, ?_, ?_⟩ <;>
      (intro h; simp [applyPatch, h])

/-- C1 witness: the concrete fixtures satisfy the hypotheses and the
    privileged author's update is answered 200. -/
theorem putPost_authorization_and_frame_witness :
    (adminEx.role = envEx.ADMIN_ROLE ∨ adminEx.role = "owner") ∧
    outsiderEx.role ≠ envEx.ADMIN_ROLE ∧ outsiderEx.role ≠ "owner" ∧
    patchValid patchEx = true ∧ patchEmpty patchEx = false ∧
    (putPost envEx (some adminEx) "p1" patchEx 2 [draftPostEx]).status = 200 :=
  ⟨Or.inl rfl, by decide, by decide, by decide, by decide,
   (putPost_authorization_and_frame envEx adminEx outsiderEx "p1" patchEx 2
      [draftPostEx] (Or.inl rfl) (by decide) (by decide) (by decide)
      (by decide)).2.2.1⟩

/-- C2 counterexample: a post already published with `published_at = 5` is
    re-published at time 10 by its privileged author, and the row's
    `published_at` becomes 10 — the second publish does not leave it at the
    value set by the first. -/
theorem publish_overwrite_counterexample :
    publishedPostEx.published_at = some 5 ∧
    (publishPost envEx (some adminEx) "p1" 10 [publishedPostEx]).db =
      [{ publishedPostEx with published_at := some 10, updated_at := 10 }] ∧
    some (10 : Int) ≠ some (5 : Int) :=
  ⟨rfl, by decide, by decide⟩

/-- C2 (amended): a successful publish unconditionally binds `published_at`
    (and `updated_at`) to the call's timestamp on the matching row, so a
    re-publish preserves `published_at` exactly when it runs at the same
    timestamp as the first publish — repeating the call with the same `t`
    leaves the table fixed. -/
theorem publishPost_overwrites_published_at
    (env : Env) (u : User) (id : String) (t : Int) (db : List Post)
    (hrole : u.role = env.ADMIN_ROLE ∨ u.role = "owner") :
    (publishPost env (some u) id t db).status = 200 ∧
    (publishPost env (some u) id t db).db =
      db.map (fun p =>
        if p.id == id && p.author_id == u.id then publishRow t p else p) ∧
    (∀ p : Post, (publishRow t p).published_at = some t) ∧
    (publishPost env (some u) id t ((publishPost env (some u) id t db).db)).db =
      (publishPost env (some u) id t db).db := by
  have hu := postWriteAllowed_of_role env u hrole
  refine ⟨by simp [publishPost, hu], by simp [publishPost, hu],
          fun p => rfl, ?_⟩
  simp only [publishPost, hu, Bool.not_true, Bool.false_eq_true, if_false,
    List.map_map]
  congr 1
  funext p
  by_cases h : (p.id == id && p.author_id == u.id) = true
  · simp [Function.comp, h, publishRow]
  · simp [Function.comp, h]

/-- C2 witness: publishing the concrete published post again at its own
    timestamp 5 leaves the table unchanged. -/
theorem publishPost_overwrites_published_at_witness :
    (adminEx.role = envEx.ADMIN_ROLE ∨ adminEx.role = "owner") ∧
    (publishPost envEx (some adminEx) "p1" 5
       ((publishPost envEx (some adminEx) "p1" 5 [publishedPostEx]).db)).db =
      (publishPost envEx (some adminEx) "p1" 5 [publishedPostEx]).db :=
  ⟨Or.inl rfl,
   (publishPost_overwrites_published_at envEx adminEx "p1" 5 [publishedPostEx]
      (Or.inl rfl)).2.2.2⟩

/-- C3 helper: `PUT /posts/:id` deletes no cache key on any of its branches. -/
theorem putPost_cacheDeletes_nil (env : Env) (user : Option User) (id : String)
    (patch : PostPatch) (now : Int) (db : List Post) :
    (putPost env user id patch now db).cacheDeletes = [] := by
  cases user with
  | none => rfl
  | some u =>
    simp only [putPost]
    split_ifs <;> rfl

/-- C3 counterexample: a successful `PUT /posts/:id` (status 200) deletes no
    cache key at all — in particular not `posts:page:1`. -/
theorem update_cache_invalidation_counterexample :
    (putPost envEx (some adminEx) "p1" patchEx 2 [draftPostEx]).status = 200 ∧
    (putPost envEx (some adminEx) "p1" patchEx 2 [draftPostEx]).cacheDeletes = [] ∧
    "posts:page:1" ∉ ([] : List String) :=
  ⟨by decide, by decide, by decide⟩

/-- C3 (amended): the create and publish routes delete the `posts:page:1`
    cache entry on success, but the update route (`PUT /posts/:id`) deletes
    no cache key on any input. -/
theorem write_cache_invalidation
    (env : Env) (u : User) (body : PostBody) (id newId : String) (now : Int)
    (db : List Post)
    (hrole : u.role = env.ADMIN_ROLE ∨ u.role = "owner")
    (hbody : postBodyValid body = true) :
    "posts:page:1" ∈ (createPost env (some u) body newId now db).cacheDeletes ∧
    "posts:page:1" ∈ (publishPost env (some u) id now db).cacheDeletes ∧
    (∀ user : Option User, ∀ patch : PostPatch,
      (putPost env user id patch now db).cacheDeletes = []) := by
  have hu := postWriteAllowed_of_role env u hrole
  refine ⟨?_, ?_, fun user patch => putPost_cacheDeletes_nil env user id patch now db⟩
  · simp [createPost, hu, hbody]
  · simp [publishPost, hu]

/-- C3 witness: the concrete privileged author and valid body satisfy the
    hypotheses; the create route deletes the first-page cache entry. -/
theorem write_cache_invalidation_witness :
    (adminEx.role = envEx.ADMIN_ROLE ∨ adminEx.role = "owner") ∧
    postBodyValid bodyEx = true ∧
    "posts:page:1" ∈ (createPost envEx (some adminEx) bodyEx "p9" 3 []).cacheDeletes :=
  ⟨Or.inl rfl, by decide,
   (write_cache_invalidation envEx adminEx bodyEx "p1" "p9" 3 []
      (Or.inl rfl) (by decide)).1⟩

/-- C4 counterexample: with `MAX_FILE_SIZE = 100` and a 1 GiB free tier, a
    101-byte file uploaded by a user already at 1073741824 bytes exceeds
    both gates; the handler answers 413 (the size gate runs first), not the
    claimed 429. -/
theorem upload_quota_429_counterexample :
    jsOrZero (some 1073741824) + fileBigEx.size >
      envEx.FREE_TIER_LIMIT_GB * 1024 * 1024 * 1024 ∧
    uploadHandler envEx (some adminEx) (some fileBigEx) (some 1073741824) 200 =
      ⟨413, []⟩ ∧
    (413 : Nat) ≠ 429 :=
  ⟨by decide, by decide, by decide⟩

/-- C4 (amended): an authenticated upload whose file passes the size gate
    (`file.size ≤ MAX_FILE_SIZE`) and whose recorded usage (0 when no quota
    row exists) plus `file.size` exceeds the configured byte limit is
    answered 429 with no storage call and no `media` or `usage_quota`
    write. -/
theorem upload_quota_gate (env : Env) (u : User) (f : FileInfo)
    (q : Option Int) (st : Nat)
    (hsize : f.size ≤ env.MAX_FILE_SIZE)
    (hq : jsOrZero q + f.size > env.FREE_TIER_LIMIT_GB * 1024 * 1024 * 1024) :
    uploadHandler env (some u) (some f) q st = ⟨429, []⟩ := by
  simp only [uploadHandler]
  rw [if_neg (not_lt.mpr hsize), if_pos hq]

/-- C4 witness: a 50-byte file over a usage of 1073741800 bytes trips the
    quota gate of the concrete environment. -/
theorem upload_quota_gate_witness :
    fileSmallEx.size ≤ envEx.MAX_FILE_SIZE ∧
    jsOrZero (some 1073741800) + fileSmallEx.size >
      envEx.FREE_TIER_LIMIT_GB * 1024 * 1024 * 1024 ∧
    uploadHandler envEx (some adminEx) (some fileSmallEx) (some 1073741800) 200 =
      ⟨429, []⟩ :=
  ⟨by decide, by decide,
   upload_quota_gate envEx adminEx fileSmallEx (some 1073741800) 200
     (by decide) (by decide)⟩

/-- C5: an authenticated upload whose file strictly exceeds `MAX_FILE_SIZE`
    is answered 413 before any effect: no storage call, no `media` insert,
    no `usage_quota` upsert. -/
theorem upload_size_gate (env : Env) (u : User) (f : FileInfo)
    (q : Option Int) (st : Nat)
    (hsize : f.size > env.MAX_FILE_SIZE) :
    uploadHandler env (some u) (some f) q st = ⟨413, []⟩ := by
  simp only [uploadHandler]
  rw [if_pos hsize]

/-- C5 witness: the 101-byte file against the 100-byte ceiling is answered
    413 with no effects, whatever quota row exists. -/
theorem upload_size_gate_witness :
    fileBigEx.size > envEx.MAX_FILE_SIZE ∧
    uploadHandler envEx (some adminEx) (some fileBigEx) none 200 = ⟨413, []⟩ :=
  ⟨by decide, upload_size_gate envEx adminEx fileBigEx none 200 (by decide)⟩

/-- C6 helper: the default-status expression is `'approved'` exactly for a
    present principal carrying the configured admin role. -/
theorem commentStatus_approved_iff (env : Env) (user : Option User) :
    commentStatus env user = "approved" ↔
      ∃ u : User, user = some u ∧ u.role = env.ADMIN_ROLE := by
  cases user with
  | none =>
    simp only [commentStatus]
    constructor
    · intro h; exact absurd h (by decide)
    · rintro ⟨u, hu, -⟩; cases hu
  | some u =>
    simp only [commentStatus]
    by_cases hr : u.role = env.ADMIN_ROLE
    · rw [hr, if_pos (beq_self_eq_true _)]
      exact ⟨fun _ => ⟨u, rfl, hr⟩, fun _ => rfl⟩
    · rw [if_neg (by simpa using hr)]
      constructor
      · intro h; exact absurd h (by decide)
      · rintro ⟨v, hv, hvr⟩
        cases hv
        exact absurd hvr hr

/-- C6 helper: the status expression takes no third value. -/
theorem commentStatus_pending_or (env : Env) (user : Option User) :
    commentStatus env user = "approved" ∨ commentStatus env user = "pending" := by
  cases user with
  | none => exact Or.inr rfl
  | some u =>
    simp only [commentStatus]
    by_cases hr : (u.role == env.ADMIN_ROLE) = true
    · rw [if_pos hr]; exact Or.inl rfl
    · rw [if_neg hr]; exact Or.inr rfl

/-- C6: a valid wall-comment submission is inserted with status `'approved'`
    exactly when the principal exists and carries the configured admin role,
    and with status `'pending'` in every other case. -/
theorem comment_approval (env : Env) (user : Option User) (wallId : String)
    (body : CommentBody) (newId : String) (now : Int)
    (hvalid : commentBodyValid body = true) :
    ∃ row : CommentRow,
      (postWallComment env user wallId body newId now).inserted = some row ∧
      (row.status = "approved" ↔
        ∃ u : User, user = some u ∧ u.role = env.ADMIN_ROLE) ∧
      (row.status = "pending" ↔
        ¬ ∃ u : User, user = some u ∧ u.role = env.ADMIN_ROLE) := by
  refine ⟨{ id := newId, content := body.content
            author_id := jsOrNull (user.map (·.id))
            author_name := jsOrStr body.author_name "Anonymous"
            wall_id := wallId, status := commentStatus env user
            created_at := now, updated_at := now },
          by simp [postWallComment, hvalid],
          commentStatus_approved_iff env user, ?_⟩
  constructor
  · intro hp hex
    have hp' : commentStatus env user = "pending" := hp
    have ha := (commentStatus_approved_iff env user).mpr hex
    rw [hp'] at ha
    exact absurd ha (by decide)
  · intro hnot
    rcases commentStatus_pending_or env user with h | h
    · exact absurd ((commentStatus_approved_iff env user).mp h) hnot
    · exact h

/-- C6 witness: the admin principal's valid comment is inserted approved. -/
theorem comment_approval_witness :
    commentBodyValid commentBodyEx = true ∧
    ∃ row : CommentRow,
      (postWallComment envEx (some adminEx) "w1" commentBodyEx "c1" 7).inserted =
        some row ∧
      row.status = "approved" :=
  ⟨by decide,
   match comment_approval envEx (some adminEx) "w1" commentBodyEx "c1" 7 (by decide) with
   | ⟨row, h1, h2, _⟩ => ⟨row, h1, h2.mpr ⟨adminEx, rfl, rfl⟩⟩⟩

/-- C7: every accepted `POST /posts` from a privileged principal appends one
    row with status `'draft'` and `published_at = NULL` and answers 201 —
    whatever `status` value the request body carried (it is stripped by the
    schema and never read). -/
theorem createPost_draft (env : Env) (u : User) (body : PostBody)
    (newId : String) (now : Int) (db : List Post)
    (hrole : u.role = env.ADMIN_ROLE ∨ u.role = "owner")
    (hvalid : postBodyValid body = true) :
    (createPost env (some u) body newId now db).status = 201 ∧
    ∃ p : Post,
      (createPost env (some u) body newId now db).db = db ++ [p] ∧
      p.status = "draft" ∧ p.published_at = none := by
  have hu := postWriteAllowed_of_role env u hrole
  exact ⟨by simp [createPost, hu, hvalid],
         ⟨{ id := newId, title := body.title, slug := body.slug
            content := body.content, excerpt := jsOrStr body.excerpt ""
            author_id := u.id, status := "draft", created_at := now
            updated_at := now, published_at := none },
          by simp [createPost, hu, hvalid], rfl, rfl⟩⟩

/-- C7 witness: the concrete body (whose raw `status` field says
    `published`) is inserted as a draft with no `published_at`. -/
theorem createPost_draft_witness :
    (adminEx.role = envEx.ADMIN_ROLE ∨ adminEx.role = "owner") ∧
    postBodyValid bodyEx = true ∧
    bodyEx.rawStatus = some "published" ∧
    ((createPost envEx (some adminEx) bodyEx "p9" 3 []).status = 201 ∧
     ∃ p : Post, (createPost envEx (some adminEx) bodyEx "p9" 3 []).db = [] ++ [p] ∧
       p.status = "draft" ∧ p.published_at = none) :=
  ⟨Or.inl rfl, by decide, rfl,
   createPost_draft envEx adminEx bodyEx "p9" 3 [] (Or.inl rfl) (by decide)⟩

/-- C8 counterexample: `GET /posts?page=0` keeps page 0 as-is and computes
    offset -10, whereas the claimed clamping to positive integers (the
    spec-modelled `specClampedParam`) would give page 1 and offset 0. -/
theorem pagination_clamp_counterexample :
    (listPosts (some "0") none 5).page = some 0 ∧
    (listPosts (some "0") none 5).offset = some (-10) ∧
    (specClampedParam (some "0") 1 - 1) * specClampedParam none 10 = 0 ∧
    ((-10 : Int) ≠ 0) :=
  ⟨by decide, by decide, by decide, by decide⟩

/-- C8 (amended): the defaults page=1, limit=10 apply only when the query
    parameter is absent (or empty); parsed numeric values are used without
    clamping. Whenever both parameters parse (`parseInt` not NaN) and the
    limit is positive, `offset = (page-1)*limit` and
    `pages = ceil(total/limit)`, with `total = 0` giving `pages = 0`. -/
theorem listPosts_pagination (pageQ limitQ : Option String) (total p l : Int)
    (hp : parseIntJS (queryOr pageQ "1") = some p)
    (hl : parseIntJS (queryOr limitQ "10") = some l)
    (hl0 : 0 < l) :
    (listPosts pageQ limitQ total).page = some p ∧
    (listPosts pageQ limitQ total).offset = some ((p - 1) * l) ∧
    (listPosts pageQ limitQ total).pages = some (jsCeilDiv total l) ∧
    (total = 0 → (listPosts pageQ limitQ total).pages = some 0) ∧
    (pageQ = none → p = 1) ∧ (limitQ = none → l = 10) := by
  have hlne : (l == 0) = false := by
    simp only [beq_eq_false_iff_ne, ne_eq]
    omega
  refine ⟨?_, ?_, ?_, ?_, ?_, ?_⟩
  · simp [listPosts, hp]
  · simp [listPosts, hp, hl]
  · simp [listPosts, hl, hlne]
  · intro ht
    simp [listPosts, hl, hlne, ht, jsCeilDiv, Int.zero_fdiv]
  · intro hq
    rw [hq] at hp
    have : parseIntJS (queryOr none "1") = some 1 := by decide
    rw [this] at hp
    exact (Option.some_injective _ hp).symm
  · intro hq
    rw [hq] at hl
    have : parseIntJS (queryOr none "10") = some 10 := by decide
    rw [this] at hl
    exact (Option.some_injective _ hl).symm

/-- C8 witness: `page=3`, limit absent, total 25 gives offset 20 and
    pages ⌈25/10⌉. -/
theorem listPosts_pagination_witness :
    parseIntJS (queryOr (some "3") "1") = some 3 ∧
    (0 : Int) < 10 ∧
    (listPosts (some "3") none 25).page = some 3 ∧
    (listPosts (some "3") none 25).offset = some ((3 - 1) * 10) ∧
    (listPosts (some "3") none 25).pages = some (jsCeilDiv 25 10) :=
  ⟨by decide, by decide,
   (listPosts_pagination (some "3") none 25 3 10 (by decide) (by decide) (by decide)).1,
   (listPosts_pagination (some "3") none 25 3 10 (by decide) (by decide) (by decide)).2.1,
   (listPosts_pagination (some "3") none 25 3 10 (by decide) (by decide) (by decide)).2.2.1⟩

/-- C9: `DELETE /media/:key` performs no local database write on any input:
    its effect list never contains the `media` insert or the `usage_quota`
    upsert (its only possible effect is the outbound storage call), so the
    quota counters are never decremented on media deletion. -/
theorem deleteMedia_no_db_write (user : Option User) (key : String) (st : Nat) :
    Effect.mediaInsert ∉ (deleteMedia user key st).effects ∧
    Effect.quotaUpsert ∉ (deleteMedia user key st).effects ∧
    ∀ e ∈ (deleteMedia user key st).effects, e = Effect.storageCall := by
  cases user with
  | none => simp [deleteMedia]
  | some u =>
    simp only [deleteMedia]
    split_ifs with h
    · simp
    · simp

/-- C10: a session record whose `expires` field is falsy (absent, null, or
    0) is always accepted — the principal is set from it regardless of the
    current time; a truthy `expires` at or before the current time resolves
    to anonymous. -/
theorem session_expiry_behavior (path sid : String)
    (store : List (String × SessionRec)) (s : SessionRec) (now : Int)
    (hpath : path ≠ "/health") (hstore : store.lookup sid = some s) :
    ((s.expires = none ∨ s.expires = some 0) →
      resolveSession path (some sid) store now = some (principalOf s)) ∧
    (∀ e : Int, s.expires = some e → e ≠ 0 → e ≤ now →
      resolveSession path (some sid) store now = none) := by
  constructor
  · intro h
    have hv : sessionValid s now = true := by
      rcases h with h | h <;> simp [sessionValid, h]
    simp [resolveSession, hpath, hstore, hv]
  · intro e he hne hle
    have hv : sessionValid s now = false := by
      simp only [sessionValid, he]
      rw [if_neg (by simpa using hne)]
      simpa using not_lt.mpr hle
    simp [resolveSession, hpath, hstore, hv]

/-- C10 witness: a stored session with no `expires` field resolves to its
    principal at time 100. -/
theorem session_expiry_behavior_witness :
    ("/posts" : String) ≠ "/health" ∧
    ([("s1", sessionNoExpiryEx)] : List (String × SessionRec)).lookup "s1" =
      some sessionNoExpiryEx ∧
    sessionNoExpiryEx.expires = none ∧
    resolveSession "/posts" (some "s1") [("s1", sessionNoExpiryEx)] 100 =
      some (principalOf sessionNoExpiryEx) :=
  ⟨by decide, by decide, rfl,
   (session_expiry_behavior "/posts" "s1" [("s1", sessionNoExpiryEx)]
      sessionNoExpiryEx 100 (by decide) (by decide)).1 (Or.inl rfl)⟩

end BlogGateway
